import Mathlib

/-!
Verification of the N-tree (BSP tree) implementation of
`src/gcode_to_voxel/NTree.py` against its natural-language specification.

Conventions of the shallow embedding:
* Python floats are modelled as exact rationals (`ℚ`).  `np.log2` followed
  by `np.ceil` and `int(...)` is modelled exactly by `Int.clog 2`; the two
  agree whenever the operands are exact powers of two (all concrete inputs
  used below are).
* Fallible Python code is modelled with `Except Err _`; the `Err`
  constructors name the Python exception class raised on that path.
  `Err.outOfBoundsError` names the exception class the specification
  postulates; no code in the repository defines or raises it, and it is
  included solely so that its absence can be stated.
* Mutation is modelled by explicit state passing: a method that can mutate
  its receiver returns the new receiver alongside its result.
-/

/-- Python exception classes that the embedded code can raise.
`outOfBoundsError` is the exception the specification postulates for
region-bounds violations; nothing in `NTree.py` defines or raises it. -/
inductive Err where
  | typeError
  | attributeError
  | assertionError
  | indexError
  | valueError
  | outOfBoundsError
deriving DecidableEq, Repr

/-- A BSP tree node, from `class Node` (`NTree.py:179`).  Fields mirror the
attributes stored by `Node.__init__` (`NTree.py:186`): `ranges` (the per-axis
`[min, max]` extents), `attrs` (the leaf attribute vector), `level`,
`max_level`, and `nodes` (`None` for a leaf, else the children in
`flatten()` order).  The derived attributes `dims = len(ranges.shape)` and
`centers = ranges.mean(-1)` are recomputed by accessors below instead of
being stored, as no method consulted by the claims reads them from storage. -/
inductive Node where
  | mk (ranges : List (ℚ × ℚ)) (attrs : List ℚ) (level : ℤ) (max_level : ℤ)
      (nodes : Option (List Node))

/-- Accessor for the `ranges` attribute of a `Node`. -/
def Node.ranges : Node → List (ℚ × ℚ)
  | .mk r _ _ _ _ => r

/-- Accessor for the `attrs` attribute of a `Node`. -/
def Node.attrs : Node → List ℚ
  | .mk _ a _ _ _ => a

/-- Accessor for the `level` attribute of a `Node`. -/
def Node.level : Node → ℤ
  | .mk _ _ l _ _ => l

/-- Accessor for the `max_level` attribute of a `Node`. -/
def Node.max_level : Node → ℤ
  | .mk _ _ _ m _ => m

/-- Accessor for the `nodes` attribute of a `Node` (`None` iff leaf). -/
def Node.nodes : Node → Option (List Node)
  | .mk _ _ _ _ ns => ns

/-- The derived `centers = ranges.mean(-1)` of `Node.__init__`
(`NTree.py:192`): the midpoint of each axis range. -/
def Node.centers (n : Node) : List ℚ :=
  n.ranges.map (fun p => (p.1 + p.2) / 2)

/-- `True` iff the node is a leaf, i.e. its `nodes` attribute is `None`. -/
def Node.isLeafB (n : Node) : Bool :=
  n.nodes.isNone

/-- The `i`-th child of an internal node (in `flatten()` order), if any. -/
def Node.child (n : Node) (i : Nat) : Option Node :=
  match n.nodes with
  | none => none
  | some ns => ns.get? i

/-- The N-tree wrapper, from `class Ntree` (`NTree.py:45`).  Fields mirror
the attributes stored by `Ntree.__init__` (`NTree.py:66`): `dims` (which is
`None` whenever `n_dimensions` was `None`, see `NTree.py:80`), `ranges`,
`resolution`, `max_depth`, `dflt_attrs`, `n_attrs` and `root`.  Note that
`Ntree` stores no `level` or `max_level` attribute — `_parse_coords`
nevertheless reads `self.max_level` and `self.level` (`NTree.py:171`). -/
structure Ntree where
  dims : Option Nat
  ranges : List (ℚ × ℚ)
  resolution : List ℚ
  max_depth : ℤ
  dflt_attrs : List ℚ
  n_attrs : Nat
  root : Node

/-- An argument that Python duck-types as either a bare number or a list of
numbers (used for the `resolution` and `attrs` constructor arguments;
`hasattr(x, '__len__')` holds exactly for the `list` case). -/
inductive NumOrList where
  | num (q : ℚ)
  | list (l : List ℚ)

/-- 1-D numpy broadcasting of elementwise division `a / b`
(for `np.diff(ranges).flatten() / resolution`, `NTree.py:89`):
equal lengths divide pointwise, a length-1 operand is stretched, any other
shape mismatch raises `ValueError` (modelled as `none`). -/
def broadcastDiv (a b : List ℚ) : Option (List ℚ) :=
  if a.length = b.length then some ((a.zip b).map fun p => p.1 / p.2)
  else
    match a, b with
    | [x], _ => some (b.map (fun y => x / y))
    | _, [y] => some (a.map (fun x => x / y))
    | _, _ => none

/-- `np.max` over a nonempty list. -/
def maxOfList (x : ℚ) (xs : List ℚ) : ℚ :=
  xs.foldl max x

/-- Lines 105–115 of `Ntree.__init__`: store the configuration, compute
`dflt_attrs = attrs if hasattr(attrs, '__len__') else [attrs]`
(`NTree.py:109`), then `n_attrs = len(attrs)` (`NTree.py:110`) — note the
`len` is taken of the *raw* `attrs` argument, so a scalar raises
`TypeError` here — and finally build the root
`Node(self.ranges, attrs, max_level=max_depth)` (`NTree.py:115`). -/
def mkNtreeFinish (rs : List (ℚ × ℚ)) (resList : List ℚ) (md : ℤ)
    (attrs : NumOrList) (dims : Option Nat) : Except Err Ntree :=
  match attrs with
  | .num _ => .error .typeError
  | .list l => .ok ⟨dims, rs, resList, md, l, l.length, .mk rs l 0 md none⟩

/-- Lines 86–90 of `Ntree.__init__` (the `ranges` and `resolution` both
given case): `steps = np.diff(ranges, axis=-1).flatten() / resolution` and
`max_depth = int(np.ceil(np.max(np.log2(steps))))`, modelled exactly as
`Int.clog 2 (max step)`.  A shape mismatch in the division raises
`ValueError`, `np.max` of an empty array raises `ValueError`, and a
non-positive step makes `np.log2` produce `nan`/`-inf`/`inf` so `int(...)`
raises (`ValueError`/`OverflowError`), all folded into `Err.valueError`.
The `max_depth` argument of the constructor plays no part here. -/
def mkNtreeWithResolution (rs : List (ℚ × ℚ)) (resList : List ℚ)
    (attrs : NumOrList) (dims : Option Nat) : Except Err Ntree :=
  match broadcastDiv (rs.map (fun p => p.2 - p.1)) resList with
  | none => .error .valueError
  | some [] => .error .valueError
  | some (s :: ss) =>
    if (s :: ss).any (fun x => decide (x ≤ 0)) then .error .valueError
    else mkNtreeFinish rs resList (Int.clog 2 (maxOfList s ss)) attrs dims

/-- `Ntree.__init__` (`NTree.py:66`–`115`).  Faithful points:
* `self.dims = len(ranges) if n_dimensions is not None else n_dimensions`
  (`NTree.py:80`): the *value* of `n_dimensions` is never used; if it is
  not `None` while `ranges` is `None`, `len(None)` raises `TypeError`.
* With `ranges` and `resolution` both given, the `max_depth` argument is
  discarded and recomputed from the resolution (`mkNtreeWithResolution`).
* With `ranges` given and `resolution` `None`, the resolution is derived
  as `spans / 2.**max_depth` (`NTree.py:93`).
* With `ranges` `None`, every path raises `TypeError`: either `len(None)`
  at line 80, or `[resolution] * None` at line 100, or `range(None)` at
  line 102 (`self.dims` is `None` in that branch). -/
def mkNtree (ranges : Option (List (ℚ × ℚ))) (resolution : Option NumOrList)
    (attrs : NumOrList) (n_dimensions : Option Nat) (max_depth : ℤ) :
    Except Err Ntree :=
  match ranges with
  | none => .error .typeError
  | some rs =>
    let dims : Option Nat :=
      match n_dimensions with
      | some _ => some rs.length
      | none => none
    match resolution with
    | some res =>
      mkNtreeWithResolution rs
        (match res with
         | .list l => l
         | .num q => List.replicate rs.length q) attrs dims
    | none =>
      mkNtreeFinish rs (rs.map (fun p => (p.2 - p.1) / (2 : ℚ) ^ max_depth))
        max_depth attrs dims

/-- One per-axis coordinate as accepted by `Ntree._parse_coords`
(`NTree.py:144`): either a Python `slice` (only `start` and `stop` are ever
read; `step` is never consulted) or a bare number. -/
inductive Coord where
  | slice (start : Option ℚ) (stop : Option ℚ)
  | num (q : ℚ)

/-- The `coords` argument of `__getitem__`/`__setitem__`/`__delitem__`:
either a bare coordinate (no `__len__`, so line 159 wraps it in a list) or
a list of per-axis coordinates. -/
inductive CoordsArg where
  | single (c : Coord)
  | list (cs : List Coord)

/-- The `for i, el in enumerate(coords)` loop of `_parse_coords`
(`NTree.py:162`–`172`), threading the mutated copy `acc` of `self.ranges`:
* a `slice` takes its missing `start`/`stop` from `self.ranges[i]`
  (`NTree.py:164`–`167`); indexing past the end of `ranges` — whether at
  that read or at the `ranges[i] = [start, end]` store (`NTree.py:172`) —
  raises `IndexError`;
* a bare number first evaluates `np.diff(self.ranges[i])` (an `IndexError`
  past the end) and then reads `self.max_level`, an attribute `Ntree` does
  not have, raising `AttributeError` (`NTree.py:170`–`171`). -/
def parseLoop (orig : List (ℚ × ℚ)) (acc : List (ℚ × ℚ)) (i : Nat) :
    List Coord → Except Err (List (ℚ × ℚ))
  | [] => .ok acc
  | c :: rest =>
    match orig.get? i with
    | none => .error .indexError
    | some (lo, hi) =>
      match c with
      | .num _ => .error .attributeError
      | .slice st en =>
        parseLoop orig (acc.set i (st.getD lo, en.getD hi)) (i + 1) rest

/-- `Ntree._parse_coords` (`NTree.py:144`–`176`).  A bare coordinate is
wrapped into a one-element list (`NTree.py:158`–`159`); then
`assert len(coords) <= self.dims` runs under Python 2 comparison rules, so
when `self.dims` is `None` the comparison is `False` and the assert fails
(`NTree.py:160`); finally the enumerate loop rewrites a copy of
`self.ranges` and returns it.  No bounds validation of any kind is
performed (the `print` on line 174 is a side effect with no state). -/
def Ntree.parse_coords (t : Ntree) (coords : CoordsArg) :
    Except Err (List (ℚ × ℚ)) :=
  let cs :=
    match coords with
    | .single c => [c]
    | .list l => l
  match t.dims with
  | none => .error .assertionError
  | some d =>
    if cs.length ≤ d then parseLoop t.ranges t.ranges 0 cs
    else .error .assertionError

/-- `Node.__getitem__` (`NTree.py:199`–`213`) on the coordinates produced
by `_parse_coords` (a list of `[start, end]` pairs):
* an internal node calls `self._read_nodes(coords)` (`NTree.py:210`), a
  method `Node` does not define (only `_get_nodes` exists), raising
  `AttributeError`;
* a leaf evaluates `[[(s.stop - s.start) / s.step] for s in coords]`
  (`NTree.py:212`); each `s` is a `[start, end]` pair, which has no `stop`
  attribute, so a nonempty `coords` raises `AttributeError`; for empty
  `coords` the comprehension is empty and `np.tile(self.attrs, [])`
  returns the attribute vector itself. -/
def Node.getItem (n : Node) (coords : List (ℚ × ℚ)) : Except Err (List ℚ) :=
  match n.nodes with
  | some _ => .error .attributeError
  | none =>
    match coords with
    | [] => .ok n.attrs
    | _ :: _ => .error .attributeError

/-- `Ntree.__getitem__` (`NTree.py:126`–`130`): parse the coordinates and
delegate to `self.root.__getitem__`. -/
def Ntree.getItem (t : Ntree) (coords : CoordsArg) : Except Err (List ℚ) :=
  match t.parse_coords coords with
  | .error e => .error e
  | .ok rs => Node.getItem t.root rs

/-- `Ntree.__setitem__` (`NTree.py:132`–`136`).  As written in the source
it takes only `coords` — the value parameter a `t[k] = v` statement would
supply is absent from the signature — and its body parses the coordinates
and calls `self.root.__getitem__(coords)`, i.e. it performs a *read*.  No
statement in this path assigns to `self` or to any node, so the tree
component of the result is the receiver unchanged. -/
def Ntree.setItem (t : Ntree) (coords : CoordsArg) :
    Except Err (List ℚ) × Ntree :=
  (match t.parse_coords coords with
   | .error e => .error e
   | .ok rs => Node.getItem t.root rs, t)

/-- `Ntree.__delitem__` (`NTree.py:138`–`142`): its body is identical to
`Ntree.__setitem__` — parse the coordinates, then
`self.root.__getitem__(coords)` — and likewise never mutates the tree. -/
def Ntree.delItem (t : Ntree) (coords : CoordsArg) :
    Except Err (List ℚ) × Ntree :=
  (match t.parse_coords coords with
   | .error e => .error e
   | .ok rs => Node.getItem t.root rs, t)

/-- `Node.__setitem__` (`NTree.py:215`–`233`).  The guard
`self.level <= self.max_level and not self._contained_by(coords)` is
evaluated left to right: when `level <= max_level` holds, Python next
calls `self._contained_by`, a method `Node` does not define, raising
`AttributeError` (so the split/recurse/merge branch is unreachable); only
when `level > max_level` does the short-circuit skip to the `else` branch,
which assigns `self.attrs = value` and returns `True`. -/
def Node.setItem (n : Node) (coords : List (ℚ × ℚ)) (value : List ℚ) :
    Except Err (Node × Bool) :=
  if n.level ≤ n.max_level then .error .attributeError
  else .ok (.mk n.ranges value n.level n.max_level n.nodes, true)

mutual
/-- `Node._merge` (`NTree.py:235`–`258`):
* `self.nodes is None`: already merged, return `True`;
* otherwise evaluate `all(n._merge() for n in self.nodes.flatten())` —
  a short-circuiting generator, so children after the first one whose
  `_merge()` returns `False` are *not* merged (see `mergeList`); if it is
  `False`, return `False`;
* otherwise read `self.nodes.flatten()[0].attrs` (an `IndexError` on an
  empty child array) and compare every child's `attrs` to it; if all are
  equal, collapse: `self.attrs = cmp_val; self.nodes = None; return True`;
  else return `False`. -/
def Node.merge : Node → Except Err (Node × Bool)
  | .mk rs a l ml none => .ok (.mk rs a l ml none, true)
  | .mk rs a l ml (some ns) =>
    match mergeList ns with
    | .error e => .error e
    | .ok (ns', false) => .ok (.mk rs a l ml (some ns'), false)
    | .ok (ns', true) =>
      match ns' with
      | [] => .error .indexError
      | c :: cs =>
        if (c :: cs).all (fun m => decide (m.attrs = c.attrs)) then
          .ok (.mk rs c.attrs l ml none, true)
        else .ok (.mk rs a l ml (some (c :: cs)), false)

/-- The generator `all(n._merge() for n in self.nodes.flatten())`
(`NTree.py:249`): merge children left to right, threading their mutated
states; `all` short-circuits, so on the first child whose merge returns
`False` the remaining children are returned untouched. -/
def mergeList : List Node → Except Err (List Node × Bool)
  | [] => .ok ([], true)
  | n :: rest =>
    match n.merge with
    | .error e => .error e
    | .ok (n', false) => .ok (n' :: rest, false)
    | .ok (n', true) =>
      match mergeList rest with
      | .error e => .error e
      | .ok (rest', b) => .ok (n' :: rest', b)
end

mutual
/-- The minimality invariant of the specification, as a whole-tree scan:
no internal node has all its children equal leaves (leaves with pairwise
identical attribute vectors). -/
def Node.minimalB : Node → Bool
  | .mk _ _ _ _ none => true
  | .mk _ _ _ _ (some ns) =>
    !(allLeavesB ns && attrsAllEqB ns) && minimalListB ns

/-- `minimalB` over every node of a list. -/
def minimalListB : List Node → Bool
  | [] => true
  | n :: rest => Node.minimalB n && minimalListB rest

/-- Every node in the list is a leaf. -/
def allLeavesB : List Node → Bool
  | [] => true
  | n :: rest => n.isLeafB && allLeavesB rest

/-- All nodes in the list have pairwise identical attribute vectors. -/
def attrsAllEqB : List Node → Bool
  | [] => true
  | c :: cs => (c :: cs).all (fun m => decide (m.attrs = c.attrs))
end

/-- One user-facing mutating call on the tree: `t[coords] = ...`
(`Ntree.__setitem__`) or `del t[coords]` (`Ntree.__delitem__`). -/
inductive Op where
  | set (coords : CoordsArg)
  | del (coords : CoordsArg)

/-- The tree state after one `set`/`del` call (the value component of the
call is discarded, as Python discards `__setitem__`/`__delitem__` return
values). -/
def applyOp (t : Ntree) (o : Op) : Ntree :=
  match o with
  | .set c => (t.setItem c).2
  | .del c => (t.delItem c).2

/-- The tree state after a finite sequence of `set`/`del` calls. -/
def applyOps (t : Ntree) (ops : List Op) : Ntree :=
  ops.foldl applyOp t

/-- Whether an `Except` result is a success. -/
def isOkB {α : Type} : Except Err α → Bool
  | .ok _ => true
  | .error _ => false

/-- Whether an `Except` result is the specification's `OutOfBoundsError`. -/
def isOOBErrB {α : Type} : Except Err α → Bool
  | .error .outOfBoundsError => true
  | _ => false

/-- The full-range region `t[:]` on a one-dimensional tree. -/
def regionFull : CoordsArg := .list [.slice none none]

/-- A concrete constructed tree used by several theorems: the result of
`Ntree(ranges=[[0, 4]], attrs=[0], n_dimensions=1)` with the default
`max_depth=8`. -/
def sampleTree : Ntree :=
  ⟨some 1, [(0, 4)], [((4 : ℚ) - 0) / (2 : ℚ) ^ (8 : ℤ)], 8, [0], 1,
    .mk [(0, 4)] [0] 0 8 none⟩

/-- The constructor really produces `sampleTree` for those arguments. -/
theorem sampleTree_eq_mkNtree :
    mkNtree (some [((0 : ℚ), 4)]) none (.list [0]) (some 1) 8 =
      .ok sampleTree := rfl

/-- `parseLoop` never produces the specification's `OutOfBoundsError`:
its only failure modes are `IndexError` and `AttributeError`. -/
theorem parseLoop_no_oob (cs : List Coord) :
    ∀ orig acc i, isOOBErrB (parseLoop orig acc i cs) = false := by
  induction cs with
  | nil => intro orig acc i; rfl
  | cons c rest ih =>
    intro orig acc i
    simp only [parseLoop]
    cases orig.get? i with
    | none => rfl
    | some p =>
      cases c with
      | num q => rfl
      | slice st en => exact ih orig _ (i + 1)

/-- `Ntree._parse_coords` never produces an `OutOfBoundsError`. -/
theorem parse_coords_no_oob (t : Ntree) (c : CoordsArg) :
    isOOBErrB (t.parse_coords c) = false := by
  unfold Ntree.parse_coords
  cases t.dims with
  | none => rfl
  | some d =>
    dsimp only
    split
    · exact parseLoop_no_oob _ _ _ _
    · rfl

/-- `Node.__getitem__` never produces an `OutOfBoundsError`. -/
theorem node_getItem_no_oob (n : Node) (coords : List (ℚ × ℚ)) :
    isOOBErrB (Node.getItem n coords) = false := by
  unfold Node.getItem
  cases n.nodes with
  | some ns => rfl
  | none => cases coords <;> rfl

/-- `Ntree.__getitem__` never produces an `OutOfBoundsError`. -/
theorem getItem_no_oob (t : Ntree) (c : CoordsArg) :
    isOOBErrB (t.getItem c) = false := by
  unfold Ntree.getItem
  cases h : t.parse_coords c with
  | error e =>
    have h2 := parse_coords_no_oob t c
    rw [h] at h2
    cases e
    case outOfBoundsError => exact h2
    all_goals rfl
  | ok rs => exact node_getItem_no_oob t.root rs

/-- A `set`/`del` sequence never changes the tree state. -/
theorem applyOps_fix (ops : List Op) : ∀ t : Ntree, applyOps t ops = t := by
  induction ops with
  | nil => intro t; rfl
  | cons o rest ih =>
    intro t
    have h1 : applyOp t o = t := by cases o <;> rfl
    show applyOps (applyOp t o) rest = t
    rw [h1]; exact ih t

/-- `mkNtreeFinish` only ever returns a tree whose root is a leaf. -/
theorem mkNtreeFinish_root_leaf {rs resList md attrs dims t}
    (h : mkNtreeFinish rs resList md attrs dims = .ok t) :
    t.root.nodes = none := by
  cases attrs with
  | num q => cases h
  | list l =>
    unfold mkNtreeFinish at h
    cases h
    rfl

/-- `mkNtreeWithResolution` only ever returns a tree whose root is a leaf. -/
theorem mkNtreeWithResolution_root_leaf {rs resList attrs dims t}
    (h : mkNtreeWithResolution rs resList attrs dims = .ok t) :
    t.root.nodes = none := by
  unfold mkNtreeWithResolution at h
  cases hb : broadcastDiv (rs.map fun p => p.2 - p.1) resList with
  | none => rw [hb] at h; cases h
  | some steps =>
    rw [hb] at h
    cases steps with
    | nil => cases h
    | cons s ss =>
      dsimp only at h
      by_cases hle : ((s :: ss).any fun x => decide (x ≤ 0)) = true
      · rw [if_pos hle] at h; cases h
      · rw [if_neg hle] at h
        exact mkNtreeFinish_root_leaf h

/-- Every tree returned by the constructor has a leaf root. -/
theorem mkNtree_root_leaf {rngs res attrs nd md t}
    (h : mkNtree rngs res attrs nd md = .ok t) : t.root.nodes = none := by
  cases rngs with
  | none => cases h
  | some rs =>
    cases res with
    | none => exact mkNtreeFinish_root_leaf h
    | some r => exact mkNtreeWithResolution_root_leaf h

/-- A leaf node trivially satisfies the minimality scan. -/
theorem Node.minimalB_of_leaf {n : Node} (h : n.nodes = none) :
    Node.minimalB n = true := by
  obtain ⟨rs, a, l, ml, ch⟩ := n
  cases ch with
  | none => rfl
  | some ns => simp [Node.nodes] at h

/-- `mkNtreeWithResolution` never succeeds when `attrs` is a scalar. -/
theorem mkNtreeWithResolution_scalar_attrs (rs : List (ℚ × ℚ))
    (resList : List ℚ) (q : ℚ) (dims : Option Nat) :
    isOkB (mkNtreeWithResolution rs resList (.num q) dims) = false := by
  unfold mkNtreeWithResolution
  cases hb : broadcastDiv (rs.map fun p => p.2 - p.1) resList with
  | none => rfl
  | some steps =>
    cases steps with
    | nil => rfl
    | cons s ss =>
      dsimp only
      by_cases hle : ((s :: ss).any fun x => decide (x ≤ 0)) = true
      · rw [if_pos hle]; rfl
      · rw [if_neg hle]; rfl

/-- C1.  The claim says `Ntree.__setitem__` writes the attribute vector to
every discretized cell of the region so that a following `get` returns it.
In the code the method performs a *read*: on the concrete tree
`Ntree(ranges=[[0, 4]], attrs=[0], n_dimensions=1)` and the full region,
`__setitem__` leaves the root leaf unchanged with its default attribute
vector `[0]` and its returned value is the read's `AttributeError`; no
attribute vector is ever written. -/
theorem c1_setitem_performs_read_and_never_writes :
    (mkNtree (some [((0 : ℚ), 4)]) none (.list [0]) (some 1) 8).map
      (fun t =>
        ((t.setItem regionFull).2.root.attrs,
         Node.isLeafB (t.setItem regionFull).2.root,
         match (t.setItem regionFull).1 with
         | .error .attributeError => true
         | _ => false)) = .ok ([0], true, true) := rfl

/-- C2.  `Ntree.__delitem__` is observably equivalent to
`Ntree.__setitem__`: the two methods have identical bodies (parse the
coordinates, then `self.root.__getitem__`), so for every tree and region
they return the same value, leave the same (unchanged) tree state, and a
subsequent `get` of any region agrees after either call.  Since
`__setitem__` has no value parameter at all, the equivalence with
`set(region, default_attributes)` holds for the one set operation the
source defines.  (The shared path is the read path, not a split/merge
write path.) -/
theorem c2_delete_observably_equivalent_to_set (t : Ntree)
    (c c' : CoordsArg) :
    t.delItem c = t.setItem c ∧ (t.delItem c).2 = t ∧
    Ntree.getItem (t.delItem c).2 c' = Ntree.getItem (t.setItem c).2 c' :=
  ⟨rfl, rfl, rfl⟩

/-- C3.  Minimality invariant: after any finite sequence of `set`/`delete`
calls on a freshly constructed tree, no internal node has all-equal leaf
children.  This holds because the constructor's root is a single leaf and
no `set`/`delete` call ever mutates the tree (both delegate to the read
path), so the scan is over a one-leaf tree. -/
theorem c3_minimality_invariant_all_op_sequences
    (rngs : Option (List (ℚ × ℚ))) (res : Option NumOrList)
    (attrs : NumOrList) (nd : Option Nat) (md : ℤ) (t : Ntree)
    (ops : List Op) (h : mkNtree rngs res attrs nd md = .ok t) :
    Node.minimalB (applyOps t ops).root = true := by
  rw [applyOps_fix]
  exact Node.minimalB_of_leaf (mkNtree_root_leaf h)

/-- Witness for C3 at a concrete tree and operation sequence. -/
theorem c3_minimality_invariant_witness :
    Node.minimalB
      (applyOps sampleTree
        [.set regionFull, .del regionFull, .set (.single (.num 1))]).root =
      true :=
  c3_minimality_invariant_all_op_sequences (some [((0 : ℚ), 4)]) none
    (.list [0]) (some 1) 8 sampleTree
    [.set regionFull, .del regionFull, .set (.single (.num 1))] rfl

/-- C9.  Frame property of `Ntree.__setitem__` and `Ntree.__delitem__`:
for every tree state and every coords argument (whether or not the call
raises), both calls leave the tree completely unchanged and return exactly
what `Ntree.__getitem__` returns for the same coords — their bodies call
`self.root.__getitem__` and contain no assignment. -/
theorem c9_set_delete_frame_and_return (t : Ntree) (c : CoordsArg) :
    t.setItem c = (t.getItem c, t) ∧ t.delItem c = (t.getItem c, t) :=
  ⟨rfl, rfl⟩

/-- C5.  The claim says a write reaching a node at `depth == max_depth`
always overwrites its attributes as a leaf and never subdivides.  In the
code the guard is `self.level <= self.max_level and not
self._contained_by(coords)`: at `level == max_level` the left conjunct is
true, so Python evaluates `self._contained_by` — a method `Node` does not
define — and the call raises `AttributeError` instead of overwriting (and,
as written, the `<=` would route such a node into the subdivide branch).
Only at `level > max_level` does the overwrite happen (second conjunct). -/
theorem c5_write_at_max_depth_raises_attribute_error :
    Node.setItem (Node.mk [((0 : ℚ), 1)] [0] 3 3 none) [((0 : ℚ), 1)] [5] =
      .error .attributeError
    ∧ Node.setItem (Node.mk [((0 : ℚ), 1)] [0] 4 3 none) [((0 : ℚ), 1)] [5] =
      .ok (Node.mk [((0 : ℚ), 1)] [5] 4 3 none, true) :=
  ⟨rfl, rfl⟩

/-- C8.  The claim says a scalar coordinate `c` on axis `i` is expanded to
`[c, c + span_i / 2^max_depth)`.  In the code the scalar branch of
`_parse_coords` evaluates `2 ** (self.max_level - self.level)`
(`NTree.py:171`) — but `Ntree` has neither a `max_level` nor a `level`
attribute (those belong to `Node`), so every scalar coordinate raises
`AttributeError`.  The slice half of the claim does hold: a slice with a
missing side inherits the tree's bound on that axis (second conjunct:
`t[:2]` on bounds `[0, 4]` parses to `[0, 2]`). -/
theorem c8_scalar_coordinate_attribute_error :
    sampleTree.parse_coords (.single (.num 1)) = .error .attributeError
    ∧ sampleTree.parse_coords (.list [.slice none (some 2)]) =
        .ok [((0 : ℚ), 2)] :=
  ⟨rfl, rfl⟩

/-- C10.  Construction with a scalar (length-less) `attrs` argument never
succeeds: on every path that reaches line 110, `n_attrs = len(attrs)`
raises `TypeError` (first conjunct: any `ranges`, no `resolution`), and no
combination of the other arguments lets a scalar-`attrs` construction
return a tree (second conjunct; the paths that fail earlier raise
`TypeError` or `ValueError` before line 110). -/
theorem c10_scalar_attrs_construction_fails :
    (∀ (rs : List (ℚ × ℚ)) (nd : Option Nat) (md : ℤ) (q : ℚ),
      mkNtree (some rs) none (.num q) nd md = .error .typeError)
    ∧ ∀ (rngs : Option (List (ℚ × ℚ))) (res : Option NumOrList)
        (nd : Option Nat) (md : ℤ) (q : ℚ),
        isOkB (mkNtree rngs res (.num q) nd md) = false := by
  constructor
  · intro rs nd md q
    rfl
  · intro rngs res nd md q
    cases rngs with
    | none => rfl
    | some rs =>
      cases res with
      | none => rfl
      | some r => exact mkNtreeWithResolution_scalar_attrs _ _ _ _

/-- A one-attribute leaf used in the merge counterexample. -/
def mergeDemoLeaf (q : ℚ) : Node := .mk [] [q] 2 8 none

/-- An internal node whose two leaf children carry different attribute
vectors, so its own merge fails. -/
def mergeDemoChild1 : Node := .mk [] [0] 1 8 (some [mergeDemoLeaf 0, mergeDemoLeaf 1])

/-- An internal node whose two leaf children carry equal attribute
vectors, so on its own it merges into a leaf. -/
def mergeDemoChild2 : Node := .mk [] [5] 1 8 (some [mergeDemoLeaf 5, mergeDemoLeaf 5])

/-- A parent whose first child cannot merge and whose second child can. -/
def mergeDemoParent : Node := .mk [] [0] 0 8 (some [mergeDemoChild1, mergeDemoChild2])

/-- C4, counterexample.  The claim says `Node._merge` "first merges every
child post-order".  It does not: `all(n._merge() for n in ...)` is a
short-circuiting generator, so once the first child's merge returns
`False` the later children are left untouched.  Concretely: the second
child of `mergeDemoParent` merges to a leaf on its own (second conjunct),
yet after the parent's `_merge` it is still internal (first conjunct). -/
theorem c4_merge_short_circuits_counterexample :
    (Node.merge mergeDemoParent).map
        (fun p => (p.2, (Node.child p.1 1).map Node.isLeafB)) =
      .ok (false, some false)
    ∧ (Node.merge mergeDemoChild2).map
        (fun p => (Node.isLeafB p.1, p.2)) = .ok (true, true) :=
  ⟨rfl, rfl⟩

/-- C4, amended.  What does hold of `Node._merge`: it returns `True` if
and only if, after the call, the node is a leaf (children are merged left
to right, stopping at the first that remains internal; when all children
end up as leaves, the node collapses exactly when their attribute vectors
are all equal). -/
theorem c4_merge_true_iff_leaf_amended (n n' : Node) (b : Bool)
    (h : Node.merge n = .ok (n', b)) : b = true ↔ n'.isLeafB = true := by
  obtain ⟨rs, a, l, ml, ch⟩ := n
  cases ch with
  | none =>
    simp only [Node.merge, Except.ok.injEq, Prod.mk.injEq] at h
    obtain ⟨h1, h2⟩ := h
    subst h1; subst h2
    simp [Node.isLeafB, Node.nodes]
  | some ns =>
    simp only [Node.merge] at h
    cases hm : mergeList ns with
    | error e => rw [hm] at h; cases h
    | ok p =>
      obtain ⟨ns', bb⟩ := p
      rw [hm] at h
      cases bb with
      | false =>
        simp only [Except.ok.injEq, Prod.mk.injEq] at h
        obtain ⟨h1, h2⟩ := h
        subst h1; subst h2
        simp [Node.isLeafB, Node.nodes]
      | true =>
        cases ns' with
        | nil => cases h
        | cons c cs =>
          dsimp only at h
          by_cases hall : ((c :: cs).all fun m => decide (m.attrs = c.attrs)) = true
          · rw [if_pos hall] at h
            simp only [Except.ok.injEq, Prod.mk.injEq] at h
            obtain ⟨h1, h2⟩ := h
            subst h1; subst h2
            simp [Node.isLeafB, Node.nodes]
          · rw [if_neg hall] at h
            simp only [Except.ok.injEq, Prod.mk.injEq] at h
            obtain ⟨h1, h2⟩ := h
            subst h1; subst h2
            simp [Node.isLeafB, Node.nodes]

/-- Witness for C4 (amended) at a concrete node. -/
theorem c4_merge_true_iff_leaf_witness :
    true = true ↔ Node.isLeafB (mergeDemoLeaf 7) = true :=
  c4_merge_true_iff_leaf_amended (mergeDemoLeaf 7) (mergeDemoLeaf 7) true rfl

/-- C6, counterexample.  The claim says a region lying (partially) outside
the bounds makes `get`/`set`/`delete` fail with `OutOfBoundsError` during
pre-recursion validation.  On the tree with bounds `[[0, 4]]`, the fully
out-of-bounds region `[10, 20)` passes `_parse_coords` without any error
(first conjunct) — no bounds validation exists — and the subsequent `get`
fails with `AttributeError`, which is not an `OutOfBoundsError`. -/
theorem c6_no_bounds_validation_counterexample :
    sampleTree.parse_coords (.list [.slice (some 10) (some 20)]) =
      .ok [((10 : ℚ), 20)]
    ∧ sampleTree.getItem (.list [.slice (some 10) (some 20)]) =
        .error .attributeError
    ∧ Err.attributeError ≠ Err.outOfBoundsError :=
  ⟨rfl, rfl, by decide⟩

/-- C6, amended.  What does hold: no call — in or out of bounds — ever
produces an `OutOfBoundsError` (the class does not exist in the code and
`_parse_coords` performs no bounds check), and `set`/`delete` never mutate
the tree, so there is indeed no partial application on failure. -/
theorem c6_no_oob_and_no_mutation_amended (t : Ntree) (c : CoordsArg) :
    (t.setItem c).2 = t ∧ (t.delItem c).2 = t ∧
    isOOBErrB (t.getItem c) = false ∧
    isOOBErrB (t.setItem c).1 = false ∧
    isOOBErrB (t.delItem c).1 = false :=
  ⟨rfl, rfl, getItem_no_oob t c, getItem_no_oob t c, getItem_no_oob t c⟩

/-- C7, counterexample.  The claim says that when both `resolution` and an
explicit `max_depth` are given, `resolution` is ignored in favor of the
explicit depth.  The code does the opposite: for
`Ntree(ranges=[[0, 4]], resolution=1, max_depth=5)` the stored `max_depth`
is `ceil(log2(4 / 1)) = 2`, not the supplied `5`. -/
theorem c7_explicit_depth_ignored_counterexample :
    (mkNtree (some [((0 : ℚ), 4)]) (some (.num 1)) (.list [0]) none 5).map
      Ntree.max_depth = .ok 2 ∧ (2 : ℤ) ≠ 5 := by
  constructor
  · simp only [mkNtree, mkNtreeWithResolution, broadcastDiv, mkNtreeFinish,
      maxOfList]
    norm_num [Except.map]
    rw [show (4 : ℕ) = 2 ^ 2 from rfl, Nat.clog_pow 2 2 (by norm_num)]
    norm_num
  · decide

/-- C7, amended.  When both `resolution` and `max_depth` are supplied
(with `ranges`), the explicit `max_depth` argument is the one that is
ignored: the constructor's result is entirely independent of it (first
conjunct), the depth being recomputed from the resolution.  The claimed
`resolution` default of `1.0` per axis belongs to the `ranges=None`
branch, on which construction always raises `TypeError` before the
default can matter (second conjunct). -/
theorem c7_depth_argument_immaterial_amended :
    (∀ (rs : List (ℚ × ℚ)) (res : NumOrList) (attrs : NumOrList)
        (nd : Option Nat) (md₁ md₂ : ℤ),
        mkNtree (some rs) (some res) attrs nd md₁ =
          mkNtree (some rs) (some res) attrs nd md₂)
    ∧ ∀ (res : Option NumOrList) (attrs : NumOrList) (nd : Option Nat)
        (md : ℤ), mkNtree none res attrs nd md = .error .typeError :=
  ⟨fun _ _ _ _ _ _ => rfl, fun _ _ _ _ => rfl⟩
